import Mathlib

/-!
Verification of the session/request logic of the browser chat widget in
`src/App.js` (the `Chatbot` component).  The component's reactive state
(`messages`, `input`, `sessionId`, `isLoading`) together with the single
browser-storage slot `chatSessionId` is embedded as an explicit record
`ClientState`.  The asynchronous `sendMessage` handler is split at its
`await` point: `sendMessageStart` performs the guard check and the
optimistic update and emits the HTTP request (if any); `sendMessageComplete`
handles the server outcome (the `try`/`catch`/`finally` part).  The
`uuidv4()` calls of the external `uuid` library are modelled by passing the
generated identifier in as an explicit argument (`freshId`), since the
generator is external nondeterminism; its documented global uniqueness
becomes a hypothesis where a claim needs it.
-/

namespace Chatbot

/-- One element of a message's `parts` array: `{ text: string }`. -/
structure Part where
  text : String
deriving DecidableEq, Repr

/-- A chat message `{ role, parts }` as built by `App.js`
(roles in use are the strings "user" and "model"). -/
structure Message where
  role : String
  parts : List Part
deriving DecidableEq, Repr

/-- The body `{ sessionId, message }` of the `POST /api/chat` request
(line 34-37 of `App.js`). -/
structure ChatRequest where
  sessionId : String
  message : String
deriving DecidableEq, Repr

/-- The reactive state of the `Chatbot` component, plus the value held by
the browser-storage key `chatSessionId` (`none` when the key is absent). -/
structure ClientState where
  messages : List Message
  input : String
  sessionId : String
  isLoading : Bool
  storage : Option String
deriving DecidableEq, Repr

/-- A JavaScript value read from a field of the error body: the field may
be absent (`undefined`), the JSON value `null`, or a string. -/
inductive JsVal where
  | undef : JsVal
  | null : JsVal
  | str : String → JsVal
deriving DecidableEq, Repr

/-- The success payload `res.data`: `{ sessionId, history }` (lines 40-42). -/
structure SuccessData where
  sessionId : String
  history : List Message
deriving DecidableEq, Repr

/-- The error body `error.response.data`; only its `sessionId` field is
inspected by the code (line 52). -/
structure ErrorData where
  sessionIdField : JsVal
deriving DecidableEq, Repr

/-- The outcome of the awaited request: success with the server payload, or
failure carrying `error.response` (`none` models a transport failure where
no response object exists). -/
inductive Outcome where
  | success : SuccessData → Outcome
  | failure : Option ErrorData → Outcome
deriving DecidableEq, Repr

/-- The optimistic user message `{ role: 'user', parts: [{ text: input }] }`
built on line 28. -/
def mkUserMessage (text : String) : Message :=
  { role := "user", parts := [{ text := text }] }

/-- The locally synthesized bot message appended on every failure
(lines 46-49). -/
def errorMessage : Message :=
  { role := "model",
    parts := [{ text := "I\x27m sorry, I couldn\x27t process that. Please try again." }] }

/-- JavaScript `String.prototype.trim`, as applied to `input` on line 26:
drop whitespace from both ends of the string.  Defined structurally over
the character list so that it evaluates by kernel reduction. -/
def jsTrim (s : String) : String :=
  String.mk (((s.data.dropWhile Char.isWhitespace).reverse.dropWhile
    Char.isWhitespace).reverse)

/-- The session initializer passed to `useState` (lines 8-16): read
`chatSessionId` from storage; if the stored value is falsy (key absent, or
the empty string), generate a fresh identifier and store it.  Returns the
identifier together with the resulting storage content. -/
def initSession (storage : Option String) (freshId : String) :
    String × Option String :=
  match storage with
  | some stored => if stored = "" then (freshId, some freshId) else (stored, storage)
  | none => (freshId, some freshId)

/-- First half of `sendMessage` (lines 25-37, up to the `await`): the guard
`input.trim() === '' || isLoading` returns with no request; otherwise the
user message is appended, the input cleared, the loading flag set, and the
request `{ sessionId, message: input }` is emitted. -/
def sendMessageStart (s : ClientState) : ClientState × Option ChatRequest :=
  if jsTrim s.input = "" ∨ s.isLoading = true then (s, none)
  else
    ({ s with
        messages := s.messages ++ [mkUserMessage s.input],
        input := "",
        isLoading := true },
     some { sessionId := s.sessionId, message := s.input })

/-- Second half of `sendMessage` (lines 39-61): on success adopt the
server's `sessionId` and replace `messages` with the server's `history`;
on failure append `errorMessage`, and if `error.response` exists and its
body's `sessionId` is strictly `null`, store a fresh identifier under
`chatSessionId`, adopt it, and clear `messages`.  The `finally` block
clears the loading flag on every path. -/
def sendMessageComplete (s : ClientState) (outcome : Outcome)
    (freshId : String) : ClientState :=
  let s1 :=
    match outcome with
    | Outcome.success d => { s with sessionId := d.sessionId, messages := d.history }
    | Outcome.failure resp =>
      let s2 := { s with messages := s.messages ++ [errorMessage] }
      match resp with
      | some err =>
        if err.sessionIdField = JsVal.null then
          { s2 with
              storage := some freshId,
              sessionId := freshId,
              messages := [] }
        else s2
      | none => s2
  { s1 with isLoading := false }

/-- The whole `sendMessage` call: run the guarded optimistic phase; if a
request was issued, run the completion phase on the given outcome.
Returns the final state and the request that was sent (if any). -/
def sendMessage (s : ClientState) (outcome : Outcome) (freshId : String) :
    ClientState × Option ChatRequest :=
  match sendMessageStart s with
  | (s1, none) => (s1, none)
  | (s1, some r) => (sendMessageComplete s1 outcome freshId, some r)

/-- The precondition under which `sendMessage` actually issues a request:
nonblank input and no request already in flight. -/
def canSend (s : ClientState) : Prop :=
  jsTrim s.input ≠ "" ∧ s.isLoading = false

instance (s : ClientState) : Decidable (canSend s) := by
  unfold canSend; infer_instance

theorem sendMessageStart_of_canSend (s : ClientState) (h : canSend s) :
    sendMessageStart s =
      ({ s with
          messages := s.messages ++ [mkUserMessage s.input],
          input := "",
          isLoading := true },
       some { sessionId := s.sessionId, message := s.input }) := by
  obtain ⟨h1, h2⟩ := h
  unfold sendMessageStart
  rw [if_neg]
  rintro (h3 | h3)
  · exact h1 h3
  · rw [h2] at h3; exact Bool.false_ne_true h3

theorem sendMessage_of_canSend (s : ClientState) (h : canSend s)
    (outcome : Outcome) (freshId : String) :
    sendMessage s outcome freshId =
      (sendMessageComplete
        { s with
            messages := s.messages ++ [mkUserMessage s.input],
            input := "",
            isLoading := true }
        outcome freshId,
       some { sessionId := s.sessionId, message := s.input }) := by
  unfold sendMessage
  rw [sendMessageStart_of_canSend s h]

theorem sendMessage_of_not_canSend (s : ClientState) (h : ¬ canSend s)
    (outcome : Outcome) (freshId : String) :
    sendMessage s outcome freshId = (s, none) := by
  have hcond : jsTrim s.input = "" ∨ s.isLoading = true := by
    by_cases h1 : jsTrim s.input = ""
    · exact Or.inl h1
    · right
      cases hb : s.isLoading
      · exact absurd ⟨h1, hb⟩ h
      · rfl
  unfold sendMessage sendMessageStart
  rw [if_pos hcond]

theorem sendMessageComplete_failure_noRotate (s : ClientState)
    (resp : Option ErrorData)
    (hr : ∀ err, resp = some err → err.sessionIdField ≠ JsVal.null)
    (freshId : String) :
    sendMessageComplete s (Outcome.failure resp) freshId =
      { s with messages := s.messages ++ [errorMessage], isLoading := false } := by
  cases resp with
  | none => rfl
  | some err =>
    obtain ⟨v⟩ := err
    cases v with
    | undef => rfl
    | null => exact absurd rfl (hr ⟨JsVal.null⟩ rfl)
    | str x => rfl

end Chatbot

open Chatbot

/-- C1: after a successful `sendMessage` exchange the client holds exactly
the server-returned session identifier and exactly the server-returned
history — the optimistic user message is not duplicated. -/
theorem C1_success_adopts_server_state (s : Chatbot.ClientState)
    (h : Chatbot.canSend s) (d : Chatbot.SuccessData) (freshId : String) :
    ((Chatbot.sendMessage s (Chatbot.Outcome.success d) freshId).1.sessionId
        = d.sessionId) ∧
    ((Chatbot.sendMessage s (Chatbot.Outcome.success d) freshId).1.messages
        = d.history) := by
  rw [Chatbot.sendMessage_of_canSend s h]
  exact ⟨rfl, rfl⟩

/-- C1 witness: a concrete successful exchange. -/
theorem C1_success_adopts_server_state_witness :
    ((Chatbot.sendMessage
        (Chatbot.ClientState.mk [] "hi" "a" false (some "a"))
        (Chatbot.Outcome.success (Chatbot.SuccessData.mk "s1"
          [Chatbot.mkUserMessage "hi", Chatbot.Message.mk "model" [Chatbot.Part.mk "ok"]]))
        "f").1.sessionId = "s1") ∧
    ((Chatbot.sendMessage
        (Chatbot.ClientState.mk [] "hi" "a" false (some "a"))
        (Chatbot.Outcome.success (Chatbot.SuccessData.mk "s1"
          [Chatbot.mkUserMessage "hi", Chatbot.Message.mk "model" [Chatbot.Part.mk "ok"]]))
        "f").1.messages =
      [Chatbot.mkUserMessage "hi", Chatbot.Message.mk "model" [Chatbot.Part.mk "ok"]]) :=
  C1_success_adopts_server_state
    (Chatbot.ClientState.mk [] "hi" "a" false (some "a"))
    (by constructor <;> decide)
    (Chatbot.SuccessData.mk "s1"
      [Chatbot.mkUserMessage "hi", Chatbot.Message.mk "model" [Chatbot.Part.mk "ok"]])
    "f"

/-- C2: when `sendMessage` fails and the error body carries `sessionId:
null`, the client adopts a freshly generated identifier (distinct from the
previous one, by global uniqueness of the generator), persists it under
`chatSessionId`, and ends with an empty history. -/
theorem C2_invalidation_rotates_session (s : ClientState) (h : canSend s)
    (freshId : String) (hf : freshId ≠ s.sessionId) :
    ((sendMessage s (Outcome.failure (some (ErrorData.mk JsVal.null)))
        freshId).1.sessionId = freshId) ∧
    ((sendMessage s (Outcome.failure (some (ErrorData.mk JsVal.null)))
        freshId).1.sessionId ≠ s.sessionId) ∧
    ((sendMessage s (Outcome.failure (some (ErrorData.mk JsVal.null)))
        freshId).1.storage = some freshId) ∧
    ((sendMessage s (Outcome.failure (some (ErrorData.mk JsVal.null)))
        freshId).1.messages = []) := by
  rw [sendMessage_of_canSend s h]
  exact ⟨rfl, hf, rfl, rfl⟩

/-- C2 witness: a concrete invalidation failure. -/
theorem C2_invalidation_rotates_session_witness :
    ((sendMessage (ClientState.mk [] "hi" "a" false (some "a"))
        (Outcome.failure (some (ErrorData.mk JsVal.null))) "b").1.sessionId = "b") ∧
    ((sendMessage (ClientState.mk [] "hi" "a" false (some "a"))
        (Outcome.failure (some (ErrorData.mk JsVal.null))) "b").1.sessionId ≠ "a") ∧
    ((sendMessage (ClientState.mk [] "hi" "a" false (some "a"))
        (Outcome.failure (some (ErrorData.mk JsVal.null))) "b").1.storage = some "b") ∧
    ((sendMessage (ClientState.mk [] "hi" "a" false (some "a"))
        (Outcome.failure (some (ErrorData.mk JsVal.null))) "b").1.messages = []) :=
  C2_invalidation_rotates_session (ClientState.mk [] "hi" "a" false (some "a"))
    (by constructor <;> decide) "b" (by decide)

/-- C3 counterexample: from a state whose storage holds "a", a successful
response rotating the session identifier to "b" is adopted in memory, yet
storage still holds "a" — the success path never writes `chatSessionId`,
so the claim that every rotation is persisted is false. -/
theorem C3_counterexample :
    ((sendMessage (ClientState.mk [] "hi" "a" false (some "a"))
        (Outcome.success (SuccessData.mk "b" [])) "f").1.sessionId = "b") ∧
    ((sendMessage (ClientState.mk [] "hi" "a" false (some "a"))
        (Outcome.success (SuccessData.mk "b" [])) "f").1.storage ≠ some "b") := by
  decide

/-- C3 amended: storage under `chatSessionId` is written when the
identifier is created at initialization and when it is rotated on an
invalidation failure; on a successful response that carries a rotated
identifier, only the in-memory identifier is updated and storage is left
unchanged. -/
theorem C3_storage_write_points :
    (∀ freshId : String, initSession none freshId = (freshId, some freshId)) ∧
    (∀ (s : ClientState), canSend s → ∀ freshId : String,
      (sendMessage s (Outcome.failure (some (ErrorData.mk JsVal.null)))
        freshId).1.storage = some freshId) ∧
    (∀ (s : ClientState), canSend s → ∀ (d : SuccessData) (freshId : String),
      (sendMessage s (Outcome.success d) freshId).1.sessionId = d.sessionId ∧
      (sendMessage s (Outcome.success d) freshId).1.storage = s.storage) := by
  refine ⟨fun f => rfl, fun s h f => ?_, fun s h d f => ?_⟩
  · rw [sendMessage_of_canSend s h]
    rfl
  · rw [sendMessage_of_canSend s h]
    exact ⟨rfl, rfl⟩

/-- C3 amended witness: the write points evaluated at concrete inputs. -/
theorem C3_storage_write_points_witness :
    (initSession none "g" = ("g", some "g")) ∧
    ((sendMessage (ClientState.mk [] "hi" "a" false (some "a"))
        (Outcome.failure (some (ErrorData.mk JsVal.null))) "b").1.storage = some "b") ∧
    ((sendMessage (ClientState.mk [] "hi" "a" false (some "a"))
        (Outcome.success (SuccessData.mk "b" [])) "f").1.storage = some "a") :=
  ⟨C3_storage_write_points.1 "g",
   C3_storage_write_points.2.1 (ClientState.mk [] "hi" "a" false (some "a"))
     (by constructor <;> decide) "b",
   (C3_storage_write_points.2.2 (ClientState.mk [] "hi" "a" false (some "a"))
     (by constructor <;> decide) (SuccessData.mk "b" []) "f").2⟩

/-- C4: a failure without the invalidation signal leaves the session
identifier and the stored value unchanged, and the final history is the
prior history, then the optimistic user message, then exactly one
synthesized bot error message. -/
theorem C4_failure_preserves_session (s : ClientState) (h : canSend s)
    (resp : Option ErrorData)
    (hr : ∀ err, resp = some err → err.sessionIdField ≠ JsVal.null)
    (freshId : String) :
    ((sendMessage s (Outcome.failure resp) freshId).1.sessionId = s.sessionId) ∧
    ((sendMessage s (Outcome.failure resp) freshId).1.storage = s.storage) ∧
    ((sendMessage s (Outcome.failure resp) freshId).1.messages =
      s.messages ++ [mkUserMessage s.input] ++ [errorMessage]) := by
  rw [sendMessage_of_canSend s h]
  rw [sendMessageComplete_failure_noRotate _ resp hr freshId]
  exact ⟨rfl, rfl, rfl⟩

/-- C4 witness: a concrete non-invalidating failure. -/
theorem C4_failure_preserves_session_witness :
    ((sendMessage (ClientState.mk [] "hi" "a" false (some "a"))
        (Outcome.failure (some (ErrorData.mk (JsVal.str "a")))) "f").1.sessionId = "a") ∧
    ((sendMessage (ClientState.mk [] "hi" "a" false (some "a"))
        (Outcome.failure (some (ErrorData.mk (JsVal.str "a")))) "f").1.storage = some "a") ∧
    ((sendMessage (ClientState.mk [] "hi" "a" false (some "a"))
        (Outcome.failure (some (ErrorData.mk (JsVal.str "a")))) "f").1.messages =
      [] ++ [mkUserMessage "hi"] ++ [errorMessage]) :=
  C4_failure_preserves_session (ClientState.mk [] "hi" "a" false (some "a"))
    (by constructor <;> decide)
    (some (ErrorData.mk (JsVal.str "a")))
    (by intro err he hnull
        cases he
        exact JsVal.noConfusion hnull)
    "f"

/-- C5: while the loading flag is true, a further `sendMessage` call is a
no-op: the state is returned unchanged and no request is emitted. -/
theorem C5_loading_suppresses_send (s : ClientState) (h : s.isLoading = true)
    (outcome : Outcome) (freshId : String) :
    sendMessage s outcome freshId = (s, none) := by
  unfold sendMessage sendMessageStart
  rw [if_pos (Or.inr h)]

/-- C5 witness: a concrete re-entrant call while loading. -/
theorem C5_loading_suppresses_send_witness :
    sendMessage (ClientState.mk [] "hi" "a" true (some "a"))
      (Outcome.success (SuccessData.mk "b" [])) "f" =
    (ClientState.mk [] "hi" "a" true (some "a"), none) :=
  C5_loading_suppresses_send (ClientState.mk [] "hi" "a" true (some "a")) rfl
    (Outcome.success (SuccessData.mk "b" [])) "f"

/-- C6: every `sendMessage` call that passes the precondition and issues a
request ends with the loading flag false, on the success path and on every
failure path. -/
theorem C6_loading_cleared (s : ClientState) (h : canSend s)
    (outcome : Outcome) (freshId : String) :
    (sendMessage s outcome freshId).1.isLoading = false := by
  rw [sendMessage_of_canSend s h]
  cases outcome with
  | success d => rfl
  | failure resp =>
    cases resp with
    | none => rfl
    | some err =>
      obtain ⟨v⟩ := err
      cases v <;> rfl

/-- C6 witness: loading is cleared after a concrete failed exchange. -/
theorem C6_loading_cleared_witness :
    (sendMessage (ClientState.mk [] "hi" "a" false (some "a"))
      (Outcome.failure none) "f").1.isLoading = false :=
  C6_loading_cleared (ClientState.mk [] "hi" "a" false (some "a"))
    (by constructor <;> decide) (Outcome.failure none) "f"

/-- C7: for input that is nonblank after trimming (and no send in flight),
the pre-request phase of `sendMessage` appends exactly one user-role
message to the history, sets the loading flag, clears the pending input,
and emits the request — all before the network outcome is known. -/
theorem C7_optimistic_update (s : ClientState) (h : canSend s) :
    ((sendMessageStart s).1.messages = s.messages ++ [mkUserMessage s.input]) ∧
    ((sendMessageStart s).1.isLoading = true) ∧
    ((sendMessageStart s).1.input = "") ∧
    ((sendMessageStart s).2 =
      some { sessionId := s.sessionId, message := s.input }) := by
  rw [sendMessageStart_of_canSend s h]
  exact ⟨rfl, rfl, rfl, rfl⟩

/-- C7 witness: the optimistic phase on a concrete state. -/
theorem C7_optimistic_update_witness :
    ((sendMessageStart (ClientState.mk [] "hi" "a" false (some "a"))).1.messages
      = [] ++ [mkUserMessage "hi"]) ∧
    ((sendMessageStart (ClientState.mk [] "hi" "a" false (some "a"))).1.isLoading = true) ∧
    ((sendMessageStart (ClientState.mk [] "hi" "a" false (some "a"))).1.input = "") ∧
    ((sendMessageStart (ClientState.mk [] "hi" "a" false (some "a"))).2 =
      some { sessionId := "a", message := "hi" }) :=
  C7_optimistic_update (ClientState.mk [] "hi" "a" false (some "a"))
    (by constructor <;> decide)

/-- C8 counterexample: from an initialized state whose identifier "a" is
nonempty, a successful exchange whose payload carries the empty string as
`sessionId` is adopted verbatim, leaving the client with an empty session
identifier — the code never guards the adopted value. -/
theorem C8_counterexample :
    ((ClientState.mk [] "hi" "a" false (some "a")).sessionId ≠ "") ∧
    ((sendMessage (ClientState.mk [] "hi" "a" false (some "a"))
        (Outcome.success (SuccessData.mk "" [])) "f").1.sessionId = "") := by
  decide

/-- C8 amended: the session identifier stays nonempty after initialization
and after every `sendMessage` outcome, provided the generated identifiers
are nonempty and — on the success path — the server-returned identifier is
nonempty; the client adopts the server value verbatim, so the invariant on
the success path holds only under that proviso. -/
theorem C8_sessionId_nonempty :
    (∀ (storage : Option String) (freshId : String), freshId ≠ "" →
      (initSession storage freshId).1 ≠ "") ∧
    (∀ (s : ClientState), s.sessionId ≠ "" →
      ∀ (outcome : Outcome) (freshId : String), freshId ≠ "" →
      (∀ d, outcome = Outcome.success d → d.sessionId ≠ "") →
      (sendMessage s outcome freshId).1.sessionId ≠ "") := by
  constructor
  · intro storage freshId hf
    cases storage with
    | none => exact hf
    | some stored =>
      by_cases hs : stored = ""
      · simpa [initSession, hs] using hf
      · simp [initSession, hs]
  · intro s hs outcome freshId hf ho
    by_cases hc : canSend s
    · rw [sendMessage_of_canSend s hc]
      cases outcome with
      | success d => exact ho d rfl
      | failure resp =>
        cases resp with
        | none => exact hs
        | some err =>
          obtain ⟨v⟩ := err
          cases v with
          | undef => exact hs
          | null => exact hf
          | str x => exact hs
    · rw [sendMessage_of_not_canSend s hc]
      exact hs

/-- C8 amended witness: the invariant evaluated on concrete runs. -/
theorem C8_sessionId_nonempty_witness :
    ((initSession (some "") "g").1 ≠ "") ∧
    ((sendMessage (ClientState.mk [] "hi" "a" false (some "a"))
        (Outcome.success (SuccessData.mk "s1" [])) "f").1.sessionId ≠ "") :=
  ⟨C8_sessionId_nonempty.1 (some "") "g" (by decide),
   C8_sessionId_nonempty.2 (ClientState.mk [] "hi" "a" false (some "a"))
     (by decide) (Outcome.success (SuccessData.mk "s1" [])) "f" (by decide)
     (by intro d hd
         cases hd
         decide)⟩

/-- C9: initializing against empty storage generates a fresh identifier and
stores it, and a second initialization against the resulting storage (with
no invalidation in between) returns the same identifier and leaves storage
as it was, for any storage the first run started from. -/
theorem C9_initSession_idempotent (storage : Option String)
    (freshId freshId2 : String) (hf : freshId ≠ "") :
    (initSession none freshId = (freshId, some freshId)) ∧
    (initSession (initSession storage freshId).2 freshId2 =
      initSession storage freshId) := by
  refine ⟨rfl, ?_⟩
  cases storage with
  | none => simp [initSession, hf]
  | some stored =>
    by_cases hs : stored = ""
    · subst hs
      simp [initSession, hf]
    · simp [initSession, hs]

/-- C9 witness: two concrete initializations in the same storage scope. -/
theorem C9_initSession_idempotent_witness :
    (initSession none "g" = ("g", some "g")) ∧
    (initSession (initSession none "g").2 "h" = initSession none "g") :=
  C9_initSession_idempotent none "g" "h" (by decide)

/-- C10: the invalidation check is a strict comparison to `null`: a failure
with no response object, a failure whose error body lacks the `sessionId`
field (`undefined`), and a failure whose field holds a string all leave the
identifier and storage unchanged and only append the synthesized error
message; the rotation (new identifier written to storage) fires exactly
when the field is `null`. -/
theorem C10_strict_null_check (s : ClientState) (h : canSend s)
    (freshId : String) :
    ((sendMessage s (Outcome.failure none) freshId).1.sessionId = s.sessionId ∧
     (sendMessage s (Outcome.failure none) freshId).1.storage = s.storage ∧
     (sendMessage s (Outcome.failure none) freshId).1.messages =
       s.messages ++ [mkUserMessage s.input] ++ [errorMessage]) ∧
    ((sendMessage s (Outcome.failure (some (ErrorData.mk JsVal.undef)))
        freshId).1.sessionId = s.sessionId ∧
     (sendMessage s (Outcome.failure (some (ErrorData.mk JsVal.undef)))
        freshId).1.storage = s.storage ∧
     (sendMessage s (Outcome.failure (some (ErrorData.mk JsVal.undef)))
        freshId).1.messages =
       s.messages ++ [mkUserMessage s.input] ++ [errorMessage]) ∧
    (∀ x : String,
     (sendMessage s (Outcome.failure (some (ErrorData.mk (JsVal.str x))))
        freshId).1.sessionId = s.sessionId ∧
     (sendMessage s (Outcome.failure (some (ErrorData.mk (JsVal.str x))))
        freshId).1.storage = s.storage) ∧
    ((sendMessage s (Outcome.failure (some (ErrorData.mk JsVal.null)))
        freshId).1.sessionId = freshId ∧
     (sendMessage s (Outcome.failure (some (ErrorData.mk JsVal.null)))
        freshId).1.storage = some freshId) := by
  rw [sendMessage_of_canSend s h (Outcome.failure none),
      sendMessage_of_canSend s h (Outcome.failure (some (ErrorData.mk JsVal.undef))),
      sendMessage_of_canSend s h (Outcome.failure (some (ErrorData.mk JsVal.null)))]
  refine ⟨⟨rfl, rfl, rfl⟩, ⟨rfl, rfl, rfl⟩, fun x => ?_, rfl, rfl⟩
  rw [sendMessage_of_canSend s h (Outcome.failure (some (ErrorData.mk (JsVal.str x))))]
  exact ⟨rfl, rfl⟩

/-- C10 witness: the strict null comparison on concrete failures. -/
theorem C10_strict_null_check_witness :
    ((sendMessage (ClientState.mk [] "hi" "a" false (some "a"))
        (Outcome.failure (some (ErrorData.mk JsVal.undef))) "b").1.sessionId = "a") ∧
    ((sendMessage (ClientState.mk [] "hi" "a" false (some "a"))
        (Outcome.failure (some (ErrorData.mk JsVal.null))) "b").1.storage = some "b") :=
  ⟨(C10_strict_null_check (ClientState.mk [] "hi" "a" false (some "a"))
      (by constructor <;> decide) "b").2.1.1,
   (C10_strict_null_check (ClientState.mk [] "hi" "a" false (some "a"))
      (by constructor <;> decide) "b").2.2.2.2⟩
